import Mathlib

/-!
Verification development for the caption-generation subsystem of
CaptionFoundry (the `whatsthisaithing/caption-foundry` repository).

The embedded code comes from two places of the repository:

* `backend/services/vision_service.py`, whose full text is excerpted in
  `src/documentation/PROJECT_DATASET_MANAGER.md` (section "VisionService
  Implementation"): the retry loop `_call_vision_model_with_retry`, the
  prompt selection in `generate_caption`, the style templates of
  `_build_prompt`, and the response parser `_parse_response`.
* the frontend API client `API.request` (file `src/unnamed/part_003`).

The job manager and runner (pause / resume / cancel, crash recovery,
progress counters) exist in the backend but their Python sources are not
under `src/`; only the database schema, the HTTP routes and the frontend
callers are.  Those parts are therefore modelled from the specification
text, and each such definition carries a doc comment starting with
`Modelled from the spec:`.

Modelling conventions: quality scores are exact rationals (the claims
only compare the defaulted constants 0.8 and 0.5, no floating point
arithmetic is involved); the external backend is a function from the
attempt index to the outcome of that attempt; `json.loads` is modelled
by a three-way outcome (decode error, well-typed object, or an object
shape on which the Python attribute accesses would raise); wall-clock
effects (sleeps, timestamps) are recorded as data (the list of backoff
waits, in seconds) instead of being performed.
-/

namespace CaptionFoundry

/-! ## Vision Backend Client: the retry loop

Embeds `VisionService._call_vision_model_with_retry` (documentation
lines 1648-1681).  The Python loop runs `for attempt in
range(self.max_retries + 1)`, treats every exception alike, sleeps
`(attempt + 1) * 2` seconds between attempts, and finally raises one
`VisionModelError` mentioning the attempt count and the last error.
The failure kind below is the ground-truth classification used by the
specification vocabulary (transient vs permanent); the embedded loop
never inspects it, mirroring the source, which catches bare
`Exception`.
-/

inductive FailureKind where
  | transient
  | permanent
  deriving DecidableEq

inductive AttemptOutcome where
  | success (response : String)
  | failure (kind : FailureKind) (message : String)
  deriving DecidableEq

def AttemptOutcome.isSuccess : AttemptOutcome → Bool
  | .success _ => true
  | .failure _ _ => false

/-- The observable trace of one call to the retry loop: the final result
(the raw response string or the raised error message), the number of
attempts performed against the external backend, and the list of backoff
waits (in seconds) slept between attempts. -/
structure RetryTrace where
  result : Except String String
  attempts : Nat
  waits : List Nat

def exceptIsOk {ε α : Type} : Except ε α → Bool
  | .ok _ => true
  | .error _ => false

/-- The message of the error raised after exhausting all attempts, from
the f-string at documentation line 1681. -/
def exhaustedMessage (maxRetries : Nat) (lastError : Option String) : String :=
  "Vision inference failed after " ++ toString (maxRetries + 1) ++ " attempts: " ++
    lastError.getD ("None")

/-- The retry loop body.  `fuel` is the number of attempts still allowed
(`maxRetries + 1 - attemptIdx` at every call), `attemptIdx` the 0-based
index of the next attempt, `lastError` the last exception message seen.
A failed attempt with fuel left sleeps `(attemptIdx + 1) * 2` seconds
(recorded in the trace) and retries; with no fuel left the loop exits
and raises the exhausted-attempts error. -/
def retryGo (backend : Nat → AttemptOutcome) (maxRetries : Nat) :
    Nat → Nat → Option String → RetryTrace
  | 0, attemptIdx, lastError =>
    ⟨.error (exhaustedMessage maxRetries lastError), attemptIdx, []⟩
  | fuel + 1, attemptIdx, _ =>
    match backend attemptIdx with
    | .success s => ⟨.ok s, attemptIdx + 1, []⟩
    | .failure _ e =>
      let t := retryGo backend maxRetries fuel (attemptIdx + 1) (some e)
      ⟨t.result, t.attempts,
        if fuel = 0 then t.waits else (attemptIdx + 1) * 2 :: t.waits⟩

/-- Embeds `VisionService._call_vision_model_with_retry`: up to
`max_retries + 1` attempts starting at attempt index 0. -/
def call_vision_model_with_retry (maxRetries : Nat) (backend : Nat → AttemptOutcome) :
    RetryTrace :=
  retryGo backend maxRetries (maxRetries + 1) 0 none

/-! ## Vision Backend Client: response parsing

Embeds `VisionService._parse_response` (documentation lines 1750-1805).
`json.loads` is modelled by `JsonParseOutcome`: `decodeError` when the
raw string is not JSON (the `except json.JSONDecodeError` path),
`dict d` when it is a JSON object whose fields have the shapes the
Python code accesses without raising, and `typeError` when `json.loads`
succeeds but the subsequent attribute accesses raise (top level not a
dict, `caption` not a string, or `quality` not a dict); that last
exception is not caught by the source and propagates. -/

/-- Models Python `str.strip()` with no argument: remove leading and
trailing whitespace.  Defined over the character list so that it
evaluates inside the kernel. -/
def pyStrip (s : String) : String :=
  ⟨((s.data.dropWhile Char.isWhitespace).reverse.dropWhile Char.isWhitespace).reverse⟩

structure QualityFields where
  sharpness : Option ℚ
  clarity : Option ℚ
  composition : Option ℚ
  exposure : Option ℚ
  overall : Option ℚ
  deriving DecidableEq

def QualityFields.empty : QualityFields := ⟨none, none, none, none, none⟩

structure ParsedData where
  caption : Option String
  quality : Option QualityFields
  flags : Option (List String)
  deriving DecidableEq

inductive JsonParseOutcome where
  | decodeError
  | typeError
  | dict (d : ParsedData)
  deriving DecidableEq

/-- The dataclass `CaptionGenerationResult` of the source.
`processing_time_ms` is set by the caller from the wall clock; the
parser always produces 0 there. -/
structure CaptionGenerationResult where
  caption : String
  quality_score : ℚ
  quality_details : List (String × ℚ)
  quality_schema_version : Nat
  flags : List String
  processing_time_ms : Nat
  model : String
  backend : String
  raw_response : Option ParsedData
  deriving DecidableEq

/-- Embeds `VisionService._parse_response`.  On a parsed object the
caption is `data.get("caption", "").strip()`, the overall score is
`quality.get("overall", 0.8)` with each per-axis detail defaulting to
0.8; on a JSON decode error the stripped raw text becomes the caption
with score 0.5 and the `unparsed_response` flag.  The uncaught
attribute errors of the `typeError` shapes propagate as `Except.error`. -/
def parse_response (outcome : JsonParseOutcome) (rawResponse modelName backendName : String) :
    Except String CaptionGenerationResult :=
  match outcome with
  | .dict d =>
    let caption := pyStrip (d.caption.getD (""))
    let q := d.quality.getD QualityFields.empty
    let qualityScore := q.overall.getD (0.8 : ℚ)
    let qualityDetails :=
      [("sharpness", q.sharpness.getD (0.8 : ℚ)),
       ("clarity", q.clarity.getD (0.8 : ℚ)),
       ("composition", q.composition.getD (0.8 : ℚ)),
       ("exposure", q.exposure.getD (0.8 : ℚ)),
       ("overall", qualityScore)]
    let flags := d.flags.getD []
    .ok ⟨caption, qualityScore, qualityDetails, 1, flags, 0, modelName, backendName, some d⟩
  | .decodeError =>
    .ok ⟨pyStrip rawResponse, (0.5 : ℚ), [("overall", (0.5 : ℚ))], 1, ["unparsed_response"], 0,
      modelName, backendName, none⟩
  | .typeError =>
    .error ("unhandled TypeError or AttributeError from malformed payload")

/-! ## Prompt Builder

Embeds `VisionService._build_prompt` (documentation lines 1560-1646)
and the prompt selection of `generate_caption` (line 1549:
`prompt = custom_prompt or self._build_prompt(style, max_length)`).
Braces of the JSON examples inside the template strings are written as
hexadecimal escapes. -/

/-- The `length_constraint` f-string: Python `if max_length` is false
for both `None` and `0`. -/
def lengthConstraintText : Option Nat → String
  | some n => if n = 0 then "" else "Maximum length: " ++ toString n ++ " characters. "
  | none => ""

/-- The JSON output-format block shared by all four style templates;
only the caption placeholder line differs. -/
def outputFormatBlock (captionPlaceholder : String) : String :=
  "Output format (JSON):\n\x7b\n  \"caption\": \"" ++ captionPlaceholder ++
  "\",\n  \"quality\": \x7b\n    \"sharpness\": 0.0-1.0,\n    \"clarity\": 0.0-1.0,\n" ++
  "    \"composition\": 0.0-1.0,\n    \"exposure\": 0.0-1.0,\n    \"overall\": 0.0-1.0\n" ++
  "  \x7d,\n  \"flags\": [\"list\", \"of\", \"quality\", \"issues\"]\n\x7d"

/-- Embeds `VisionService._build_prompt`: a style-specific template with
the length constraint interpolated; every unknown style falls through to
the `custom` template. -/
def build_prompt (style : String) (maxLength : Option Nat) : String :=
  let lengthConstraint := lengthConstraintText maxLength
  if style = "natural_simple" then
    "Describe this image in one clear, concise sentence suitable for AI training.\n" ++
    "Focus on: main subject, action/pose, setting/background.\n" ++
    "Be objective and descriptive. Avoid subjective interpretations.\n" ++
    lengthConstraint ++ "\n\n" ++ outputFormatBlock ("Your caption here")
  else if style = "natural_detailed" then
    "Provide a detailed 2-3 sentence description of this image suitable for AI training.\n" ++
    "Include: subjects, actions, environment, mood, lighting, notable details, composition.\n" ++
    "Be specific and objective. Suitable for high-quality model training.\n" ++
    lengthConstraint ++ "\n\n" ++ outputFormatBlock ("Your detailed caption here")
  else if style = "tags" then
    "Extract visual tags from this image suitable for AI training.\n" ++
    "Format: comma-separated tags, ordered by importance (most to least).\n" ++
    "Include: subjects, objects, actions, style, mood, colors, technical aspects.\n" ++
    "Be specific and comprehensive.\n" ++
    lengthConstraint ++ "\n\n" ++ outputFormatBlock ("tag1, tag2, tag3, tag4, tag5, ...")
  else
    "Analyze this image and provide a caption suitable for AI training.\n" ++
    lengthConstraint ++ "\n\n" ++ outputFormatBlock ("Your caption here")

/-- Embeds the prompt selection of `generate_caption`:
`custom_prompt or self._build_prompt(style, max_length)`.  Python `or`
falls through on `None` and on the empty string. -/
def prompt_for (style : String) (maxLength : Option Nat) (customPrompt : Option String) :
    String :=
  match customPrompt with
  | some c => if c = "" then build_prompt style maxLength else c
  | none => build_prompt style maxLength

/-- Embeds `generate_caption` end to end: select the prompt, call the
backend through the retry loop, parse the response.  The backend model
receives the prompt so that the data flow of the source is preserved;
`parseOf` models `json.loads` on the raw response. -/
def generate_caption (maxRetries : Nat) (backend : String → Nat → AttemptOutcome)
    (parseOf : String → JsonParseOutcome)
    (style : String) (maxLength : Option Nat) (customPrompt : Option String)
    (modelName backendName : String) : Except String CaptionGenerationResult :=
  let prompt := prompt_for style maxLength customPrompt
  let trace := call_vision_model_with_retry maxRetries (backend prompt)
  match trace.result with
  | .error e => .error e
  | .ok raw => parse_response (parseOf raw) raw modelName backendName

/-- Projection used to state parser properties: the overall quality
score of a parse result, when parsing did not raise. -/
def resultScore (e : Except String CaptionGenerationResult) : Option ℚ :=
  match e with
  | .ok r => some r.quality_score
  | .error _ => none

/-- Projection used to state parser properties: the per-axis quality
detail of a parse result, when parsing did not raise. -/
def resultDetail (axis : String) (e : Except String CaptionGenerationResult) : Option ℚ :=
  match e with
  | .ok r => r.quality_details.lookup axis
  | .error _ => none

/-! ## Frontend API client

Embeds `API.request` (file `src/unnamed/part_003`, lines 20-73).  A
fetch either rejects with a network error or produces a response with a
status code, a status text, and a body; `body` is the result of
`response.json()`: `some v` when the body parses as JSON, `none` when
the parse rejects (on the non-ok path that rejection is swallowed by
`.catch(() => ({detail: response.statusText}))`; on the ok path it
propagates).  `response.ok` is status 200-299, as fetch defines it. -/

inductive JsonVal where
  | null
  | bool (b : Bool)
  | num (q : ℚ)
  | str (s : String)
  | arr (elems : List JsonVal)
  | obj (fields : List (String × JsonVal))

mutual

/-- JavaScript string conversion as used inside template literals;
numeric rendering is nominal (the exact digits of the message text are
immaterial, only whether an Error is thrown matters). -/
def jsToDisplay : JsonVal → String
  | .null => "null"
  | .bool true => "true"
  | .bool false => "false"
  | .num q => toString q
  | .str s => s
  | .arr l => jsToDisplayList l
  | .obj _ => "[object Object]"

def jsToDisplayList : List JsonVal → String
  | [] => ""
  | [v] => jsToDisplay v
  | v :: rest => jsToDisplay v ++ "," ++ jsToDisplayList rest

end

mutual

/-- `JSON.stringify`, without string escaping (immaterial to the
claims: only used to build thrown error messages). -/
def stringifyVal : JsonVal → String
  | .null => "null"
  | .bool true => "true"
  | .bool false => "false"
  | .num q => toString q
  | .str s => "\"" ++ s ++ "\""
  | .arr l => "[" ++ stringifyList l ++ "]"
  | .obj l => "\x7b" ++ stringifyFields l ++ "\x7d"

def stringifyList : List JsonVal → String
  | [] => ""
  | [v] => stringifyVal v
  | v :: rest => stringifyVal v ++ "," ++ stringifyList rest

def stringifyFields : List (String × JsonVal) → String
  | [] => ""
  | [(k, v)] => "\"" ++ k ++ "\":" ++ stringifyVal v
  | (k, v) :: rest => "\"" ++ k ++ "\":" ++ stringifyVal v ++ "," ++ stringifyFields rest

end

/-- One entry of a Pydantic validation-error array, rendered as
`${e.loc?.join('.')}: ${e.msg}`.  Missing properties render as the text
`undefined`, as a template literal does.  (A `loc` that is present but
not an array would make `.join` raise a TypeError in the browser; it is
rendered as text here, which is immaterial because that path throws an
Error either way.) -/
def validationEntryText (e : JsonVal) : String :=
  let locText :=
    match e with
    | .obj fields =>
      match fields.lookup ("loc") with
      | some (.arr xs) => String.intercalate "." (xs.map jsToDisplay)
      | some v => jsToDisplay v
      | none => "undefined"
    | _ => "undefined"
  let msgText :=
    match e with
    | .obj fields =>
      match fields.lookup ("msg") with
      | some v => jsToDisplay v
      | none => "undefined"
    | _ => "undefined"
  locText ++ ": " ++ msgText

/-- The message of the Error thrown on a non-ok response: the
`error.detail` extraction of `API.request`, including the JavaScript
truthiness of the final `errorMessage || 'HTTP <status>'` fallback
(`undefined`, `null` rendered by `JSON.stringify` as the string `null`
which is truthy, the empty string, `0` and `false` fall back). -/
def requestErrorMessage (body : Option JsonVal) (statusText : String) (status : Nat) : String :=
  let err := body.getD (.obj [("detail", .str statusText)])
  let detail : Option JsonVal :=
    match err with
    | .obj fields => fields.lookup ("detail")
    | _ => none
  let message : Option String :=
    match detail with
    | some (.arr l) =>
      let joined := String.intercalate ", " (l.map validationEntryText)
      if joined = "" then none else some joined
    | some (.obj fields) => some (stringifyVal (.obj fields))
    | some .null => some (stringifyVal .null)
    | some (.str s) => if s = "" then none else some s
    | some (.num q) => if q = 0 then none else some (toString q)
    | some (.bool b) => if b then some (jsToDisplay (.bool b)) else none
    | none => none
  message.getD ("HTTP " ++ toString status)

inductive FetchResult where
  | networkError (message : String)
  | response (status : Nat) (statusText : String) (body : Option JsonVal)

/-- Embeds `API.request`: throw an Error for every non-ok response
(message from `error.detail`), return `null` for a 204 without reading
the body, return the parsed JSON body for every other ok response (a
body that fails to parse makes `response.json()` reject, and that
rejection is rethrown by the catch block), and rethrow network errors. -/
def apiRequest : FetchResult → Except String JsonVal
  | .networkError m => .error m
  | .response status statusText body =>
    if ¬ (200 ≤ status ∧ status ≤ 299) then
      .error (requestErrorMessage body statusText status)
    else if status = 204 then
      .ok .null
    else
      match body with
      | some data => .ok data
      | none => .error ("SyntaxError: response body is not valid JSON")

/-! ## Job state machine

The caption-job runner and manager are backend code of this repository
that is not under `src/` (only the `caption_jobs` schema, the
`/api/vision/jobs` routes and the frontend callers are), so the
definitions of this section are modelled from the specification text
(sections 3, 4.3, 4.4, 4.5 and 6 of the spec). -/

/-- Modelled from the spec: job statuses of the state machine of
section 4.4, `pending → running ⇄ paused → (completed, cancelled,
failed)`. -/
inductive JobStatus where
  | pending
  | running
  | paused
  | completed
  | cancelled
  | failed
  deriving DecidableEq

/-- Modelled from the spec: the terminal statuses, `completed`,
`cancelled` and `failed`. -/
def JobStatus.isTerminal : JobStatus → Bool
  | .completed => true
  | .cancelled => true
  | .failed => true
  | _ => false

/-- Modelled from the spec: the three kinds of per-item terminal
outcome of a `CaptionOutcome` (section 3). -/
inductive OutcomeKind where
  | succeeded
  | failedItem
  | skippedItem
  deriving DecidableEq

/-- Modelled from the spec: the mutable state of a `CaptionJob` record
(section 3): status, fixed total item count, the three progress
counters, and the recovery payload listing which work-list items
reached which outcome. -/
structure JobState where
  status : JobStatus
  total : Nat
  completedCount : Nat
  failedCount : Nat
  skippedCount : Nat
  payload : List (Nat × OutcomeKind)
  deriving DecidableEq

def doneCount (s : JobState) : Nat := s.completedCount + s.failedCount + s.skippedCount

/-- Modelled from the spec: a job is created `pending` with all
counters at zero, an empty recovery payload, and the total fixed at
creation time. -/
def initialJob (total : Nat) : JobState :=
  ⟨.pending, total, 0, 0, 0, []⟩

/-- Modelled from the spec: `applyProgress` increments the matching
counter and appends the outcome to the recovery payload. -/
def bumpCounter (s : JobState) (item : Nat) (k : OutcomeKind) : JobState :=
  match k with
  | .succeeded =>
    { s with completedCount := s.completedCount + 1, payload := s.payload ++ [(item, k)] }
  | .failedItem =>
    { s with failedCount := s.failedCount + 1, payload := s.payload ++ [(item, k)] }
  | .skippedItem =>
    { s with skippedCount := s.skippedCount + 1, payload := s.payload ++ [(item, k)] }

/-- Modelled from the spec: recording one outcome; the Runner watches
the aggregate counters and the transition `running → completed` fires
when `completed + failed + skipped == total` (section 4.4). -/
def applyProgress (s : JobState) (item : Nat) (k : OutcomeKind) : JobState :=
  let s' := bumpCounter s item k
  if doneCount s' = s'.total then { s' with status := .completed } else s'

/-- Modelled from the spec: the transitions of the job state machine of
section 4.4.  Work is dispatched only while the job is `running` and
only for the not-yet-processed remainder of the fixed work list, so a
progress step requires `doneCount s < s.total`; `cancelled` is terminal
and reachable from `pending`, `running` or `paused`; `running → failed`
happens on unrecoverable (persistence or configuration) errors. -/
inductive JobStep : JobState → JobState → Prop where
  | start (s : JobState) (h : s.status = .pending) :
      JobStep s { s with status := .running }
  | progress (s : JobState) (item : Nat) (k : OutcomeKind)
      (hrun : s.status = .running) (hlt : doneCount s < s.total) :
      JobStep s (applyProgress s item k)
  | pause (s : JobState) (h : s.status = .running) :
      JobStep s { s with status := .paused }
  | resume (s : JobState) (h : s.status = .paused) :
      JobStep s { s with status := .running }
  | cancel (s : JobState)
      (h : s.status = .pending ∨ s.status = .running ∨ s.status = .paused) :
      JobStep s { s with status := .cancelled }
  | fatal (s : JobState) (h : s.status = .running) :
      JobStep s { s with status := .failed }

/-- Modelled from the spec: the job states reachable from creation
through the state machine. -/
inductive JobReachable : JobState → Prop where
  | init (total : Nat) : JobReachable (initialJob total)
  | step {s s' : JobState} (hr : JobReachable s) (hs : JobStep s s') : JobReachable s'

/-- Modelled from the spec: crash recovery (section 4.4).  On process
startup the Job Manager transitions every job whose persisted status is
`running` to `paused` rather than silently resuming it; all other jobs
are left as loaded. -/
def recoverOnStartup (s : JobState) : JobState :=
  if s.status = JobStatus.running then { s with status := JobStatus.paused } else s

/-- Modelled from the spec: the non-fatal report of a control command
(section 6): either the command applied, or it was an
`InvalidTransition`, reported as a value to the caller. -/
inductive ControlResult where
  | applied
  | invalidTransition
  deriving DecidableEq

/-- Modelled from the spec: the pause command is honored only on a
`running` job; on any other status it is a no-op reported as
`InvalidTransition`. -/
def pauseCommand (s : JobState) : JobState × ControlResult :=
  if s.status = JobStatus.running then ({ s with status := JobStatus.paused }, .applied)
  else (s, .invalidTransition)

/-- Modelled from the spec: the resume command is honored only on a
`paused` job; on any other status it is a no-op reported as
`InvalidTransition`. -/
def resumeCommand (s : JobState) : JobState × ControlResult :=
  if s.status = JobStatus.paused then ({ s with status := JobStatus.running }, .applied)
  else (s, .invalidTransition)

/-! ## Theorems

Helper lemmas first, then one theorem per claim (with its
counterexample and witness where applicable). -/

lemma retryGo_success_head (b : Nat → AttemptOutcome) (m fuel idx : Nat) (le : Option String)
    (s : String) (h : b idx = .success s) :
    retryGo b m (fuel + 1) idx le = ⟨.ok s, idx + 1, []⟩ := by
  simp [retryGo, h]

lemma waits_shift (idx f : Nat) :
    (idx + 1) * 2 :: (List.range f).map (fun j => (idx + 1 + j + 1) * 2) =
    (List.range (f + 1)).map (fun j => (idx + j + 1) * 2) := by
  rw [List.range_succ_eq_map, List.map_cons, List.map_map]
  congr 1
  congr 1
  funext j
  simp [Function.comp]
  ring

lemma retryGo_allFail (b : Nat → AttemptOutcome) (m : Nat)
    (hb : ∀ i, (b i).isSuccess = false) :
    ∀ (fuel idx : Nat) (le : Option String),
      (retryGo b m fuel idx le).attempts = idx + fuel ∧
      (retryGo b m fuel idx le).waits =
        (List.range (fuel - 1)).map (fun j => (idx + j + 1) * 2) ∧
      exceptIsOk (retryGo b m fuel idx le).result = false := by
  intro fuel
  induction fuel with
  | zero =>
    intro idx le
    simp [retryGo, exceptIsOk]
  | succ f ih =>
    intro idx le
    have hbi := hb idx
    cases hcase : b idx with
    | success s => rw [hcase] at hbi; simp [AttemptOutcome.isSuccess] at hbi
    | failure k e =>
      have hrec := ih (idx + 1) (some e)
      simp only [retryGo, hcase]
      refine ⟨by rw [hrec.1]; omega, ?_, hrec.2.2⟩
      by_cases hf : f = 0
      · subst hf
        simpa using hrec.2.1
      · rw [if_neg hf, hrec.2.1]
        obtain ⟨f', rfl⟩ := Nat.exists_eq_succ_of_ne_zero hf
        simp only [Nat.succ_sub_one]
        exact waits_shift idx f'

lemma retryGo_shape_congr (b1 b2 : Nat → AttemptOutcome) (m : Nat)
    (hshape : ∀ i, (b1 i).isSuccess = (b2 i).isSuccess) :
    ∀ (fuel idx : Nat) (le1 le2 : Option String),
      (retryGo b1 m fuel idx le1).attempts = (retryGo b2 m fuel idx le2).attempts ∧
      (retryGo b1 m fuel idx le1).waits = (retryGo b2 m fuel idx le2).waits := by
  intro fuel
  induction fuel with
  | zero => intro idx le1 le2; exact ⟨rfl, rfl⟩
  | succ f ih =>
    intro idx le1 le2
    have hs := hshape idx
    cases h1 : b1 idx with
    | success s1 =>
      cases h2 : b2 idx with
      | success s2 => simp [retryGo, h1, h2]
      | failure k2 e2 => rw [h1, h2] at hs; simp [AttemptOutcome.isSuccess] at hs
    | failure k1 e1 =>
      cases h2 : b2 idx with
      | success s2 => rw [h1, h2] at hs; simp [AttemptOutcome.isSuccess] at hs
      | failure k2 e2 =>
        have hrec := ih (idx + 1) (some e1) (some e2)
        simp only [retryGo, h1, h2]
        exact ⟨hrec.1, by rw [hrec.2]⟩

/-- Claim C1, counterexample: with the default configuration
`max_retries = 2`, one generate call against a backend whose attempts
all fail with a timeout performs 3 attempts against the external
backend, not exactly one — the retry loop lives inside the Client, not
in its caller. -/
theorem client_not_single_attempt :
    (call_vision_model_with_retry 2
      (fun _ => .failure .transient ("connection timeout"))).attempts = 3 ∧
    (3 : Nat) ≠ 1 :=
  ⟨rfl, by decide⟩

/-- Claim C1, amended: a single call to the generate operation performs
up to `max_retries + 1` attempts inside the Client: it returns the
first successful response immediately (one attempt when the first
attempt succeeds), and when every attempt fails it performs exactly
`max_retries + 1` attempts and raises one unclassified
`VisionModelError`; failures are not classified transient versus
permanent — the loop catches bare `Exception`. -/
theorem client_internal_retry_behavior (m : Nat) (b : Nat → AttemptOutcome) (s : String) :
    (b 0 = .success s → call_vision_model_with_retry m b = ⟨.ok s, 1, []⟩) ∧
    ((∀ i, (b i).isSuccess = false) →
      (call_vision_model_with_retry m b).attempts = m + 1 ∧
      exceptIsOk (call_vision_model_with_retry m b).result = false) := by
  constructor
  · intro h
    exact retryGo_success_head b m m 0 none s h
  · intro hb
    have h := retryGo_allFail b m hb (m + 1) 0 none
    refine ⟨?_, h.2.2⟩
    rw [call_vision_model_with_retry, h.1]
    omega

/-- Witness for the amended claim C1, at a backend succeeding at once
and at an always-failing backend. -/
theorem client_internal_retry_behavior_witness :
    call_vision_model_with_retry 2 (fun _ => .success ("a caption")) =
      ⟨.ok ("a caption"), 1, []⟩ ∧
    (call_vision_model_with_retry 2 (fun _ => .failure .transient ("timeout"))).attempts =
      2 + 1 :=
  ⟨(client_internal_retry_behavior 2 (fun _ => .success ("a caption")) ("a caption")).1 rfl,
   ((client_internal_retry_behavior 2 (fun _ => .failure .transient ("timeout")) ("")).2
      (fun _ => rfl)).1⟩

/-- Claim C2, counterexample: a failure of the permanent kind (a bad
request) is retried like any other failure: with `max_retries = 3` the
loop performs 4 attempts, not exactly one, and the backoff waits are
2, 4, 6 seconds — linear (`(attempt + 1) * 2`), not exponential. -/
theorem permanent_failure_retried :
    (call_vision_model_with_retry 3
      (fun _ => .failure .permanent ("bad request"))).attempts = 4 ∧
    (call_vision_model_with_retry 3
      (fun _ => .failure .permanent ("bad request"))).waits = [2, 4, 6] ∧
    (4 : Nat) ≠ 1 :=
  ⟨rfl, rfl, by decide⟩

/-- Claim C2, amended: the per-item retry policy in the source treats
transient and permanent failures identically: the attempt count and the
backoff waits depend only on which attempts succeed, never on the
failure kind, and an always-failing item is retried through waits of
`(attempt + 1) * 2` seconds (2 s, 4 s, 6 s, ... — linear backoff)
before the single error propagates to be recorded as the item failure. -/
theorem retry_ignores_failure_kind (m : Nat) (b1 b2 : Nat → AttemptOutcome)
    (hshape : ∀ i, (b1 i).isSuccess = (b2 i).isSuccess) :
    ((call_vision_model_with_retry m b1).attempts =
       (call_vision_model_with_retry m b2).attempts ∧
     (call_vision_model_with_retry m b1).waits =
       (call_vision_model_with_retry m b2).waits) ∧
    ((∀ i, (b1 i).isSuccess = false) →
      (call_vision_model_with_retry m b1).waits =
        (List.range m).map (fun j => (j + 1) * 2)) := by
  constructor
  · exact retryGo_shape_congr b1 b2 m hshape (m + 1) 0 none none
  · intro hb
    have h := (retryGo_allFail b1 m hb (m + 1) 0 none).2.1
    rw [call_vision_model_with_retry, h]
    simp

/-- Witness for the amended claim C2: a backend always failing with a
timeout and one always failing with an unsupported-model error produce
the same attempt count and the same linear waits. -/
theorem retry_ignores_failure_kind_witness :
    ((call_vision_model_with_retry 3 (fun _ => .failure .transient ("timeout"))).attempts =
       (call_vision_model_with_retry 3
         (fun _ => .failure .permanent ("unsupported model"))).attempts) ∧
    (call_vision_model_with_retry 3 (fun _ => .failure .transient ("timeout"))).waits =
      (List.range 3).map (fun j => (j + 1) * 2) :=
  ⟨((retry_ignores_failure_kind 3 (fun _ => .failure .transient ("timeout"))
      (fun _ => .failure .permanent ("unsupported model")) (fun _ => rfl)).1).1,
   (retry_ignores_failure_kind 3 (fun _ => .failure .transient ("timeout"))
      (fun _ => .failure .permanent ("unsupported model")) (fun _ => rfl)).2 (fun _ => rfl)⟩

/-- Claim C3, counterexample: for a raw response with surrounding
whitespace that is not JSON, the fallback caption is the stripped text,
not the raw response text itself (`raw_response.strip()` at
documentation line 1797). -/
theorem fallback_caption_not_verbatim :
    parse_response .decodeError (" a dog on grass ") ("m") ("b") =
      .ok ⟨"a dog on grass", (0.5 : ℚ), [("overall", (0.5 : ℚ))], 1, ["unparsed_response"], 0,
        "m", "b", none⟩ ∧
    ("a dog on grass" : String) ≠ " a dog on grass " :=
  ⟨rfl, by decide⟩

/-- Claim C3, amended: for every backend response string that is not
parseable as JSON, the parse step returns a non-fatal result (no error
on this path), whose caption is the whitespace-stripped raw response
text, whose quality score is exactly 0.5, and whose flags are exactly
the `unparsed_response` marker. -/
theorem fallback_parse_behavior (raw modelName backendName : String) :
    parse_response .decodeError raw modelName backendName =
      .ok ⟨pyStrip raw, (0.5 : ℚ), [("overall", (0.5 : ℚ))], 1, ["unparsed_response"], 0,
        modelName, backendName, none⟩ :=
  rfl

/-- Claim C4, counterexample: a present custom prompt override is
returned as the whole prompt with nothing appended — no output-format
instructions (which are a non-empty block) and no trigger-phrase
injection (`generate_caption` takes no trigger phrase at all):
`prompt = custom_prompt or self._build_prompt(style, max_length)`. -/
theorem custom_prompt_appends_nothing :
    prompt_for ("natural_simple") none (some ("Describe this image briefly.")) =
      "Describe this image briefly." ∧
    outputFormatBlock ("Your caption here") ≠ "" :=
  ⟨rfl, by decide⟩

/-- Claim C4, amended: the prompt construction deterministically
returns a single string; a non-empty custom-prompt override is used
verbatim with nothing appended (no trigger-phrase injection and no
output-format instructions), and with no override the style-specific
template is filled in with the length constraint. -/
theorem prompt_builder_behavior (style : String) (maxLength : Option Nat) (c : String)
    (hc : c ≠ "") :
    prompt_for style maxLength (some c) = c ∧
    prompt_for style maxLength none = build_prompt style maxLength := by
  refine ⟨?_, rfl⟩
  simp [prompt_for, hc]

/-- Witness for the amended claim C4 at a concrete style, length and
override. -/
theorem prompt_builder_behavior_witness :
    prompt_for ("tags") (some 100) (some ("List the colors.")) = "List the colors." ∧
    prompt_for ("tags") (some 100) none = build_prompt ("tags") (some 100) :=
  prompt_builder_behavior ("tags") (some 100) ("List the colors.") (by decide)

/-- Claim C9: an empty-string custom prompt is falsy for the Python
`or`, so it is treated as absent and the style template is used; the
override is honored only when it is a non-empty string. -/
theorem empty_custom_prompt_ignored (style : String) (maxLength : Option Nat) :
    prompt_for style maxLength (some ("")) = build_prompt style maxLength ∧
    ∀ c : String, c ≠ "" → prompt_for style maxLength (some c) = c := by
  constructor
  · simp [prompt_for]
  · intro c hc
    simp [prompt_for, hc]

/-- Witness for claim C9 at a concrete style. -/
theorem empty_custom_prompt_ignored_witness :
    prompt_for ("natural_detailed") none (some ("")) = build_prompt ("natural_detailed") none ∧
    prompt_for ("natural_detailed") none (some ("x")) = "x" :=
  ⟨(empty_custom_prompt_ignored ("natural_detailed") none).1,
   (empty_custom_prompt_ignored ("natural_detailed") none).2 ("x") (by decide)⟩

/-- Claim C8: for a backend response that parses as a JSON object but
omits the quality object or its overall field, the overall quality
score defaults to 0.8, each missing per-axis detail defaults to 0.8,
and 0.8 differs from the 0.5 used for unparseable responses. -/
theorem parsed_quality_defaults (d : ParsedData) (raw m b : String)
    (h : (d.quality.getD QualityFields.empty).overall = none) :
    resultScore (parse_response (.dict d) raw m b) = some (0.8 : ℚ) ∧
    resultDetail ("overall") (parse_response (.dict d) raw m b) = some (0.8 : ℚ) ∧
    ((d.quality.getD QualityFields.empty).sharpness = none →
      resultDetail ("sharpness") (parse_response (.dict d) raw m b) = some (0.8 : ℚ)) ∧
    ((d.quality.getD QualityFields.empty).clarity = none →
      resultDetail ("clarity") (parse_response (.dict d) raw m b) = some (0.8 : ℚ)) ∧
    ((d.quality.getD QualityFields.empty).composition = none →
      resultDetail ("composition") (parse_response (.dict d) raw m b) = some (0.8 : ℚ)) ∧
    ((d.quality.getD QualityFields.empty).exposure = none →
      resultDetail ("exposure") (parse_response (.dict d) raw m b) = some (0.8 : ℚ)) ∧
    (0.8 : ℚ) ≠ (0.5 : ℚ) := by
  have key : parse_response (.dict d) raw m b =
      .ok ⟨pyStrip (d.caption.getD ("")),
        (d.quality.getD QualityFields.empty).overall.getD (0.8 : ℚ),
        [("sharpness", (d.quality.getD QualityFields.empty).sharpness.getD (0.8 : ℚ)),
         ("clarity", (d.quality.getD QualityFields.empty).clarity.getD (0.8 : ℚ)),
         ("composition", (d.quality.getD QualityFields.empty).composition.getD (0.8 : ℚ)),
         ("exposure", (d.quality.getD QualityFields.empty).exposure.getD (0.8 : ℚ)),
         ("overall", (d.quality.getD QualityFields.empty).overall.getD (0.8 : ℚ))],
        1, d.flags.getD [], 0, m, b, some d⟩ := rfl
  rw [key]
  refine ⟨?_, ?_, ?_, ?_, ?_, ?_, by norm_num⟩
  · simp [resultScore, h]
  · simp [resultDetail, List.lookup, h]
  · intro hx
    simp [resultDetail, List.lookup, hx]
  · intro hx
    simp [resultDetail, List.lookup, hx]
  · intro hx
    simp [resultDetail, List.lookup, hx]
  · intro hx
    simp [resultDetail, List.lookup, hx]

/-- Witness for claim C8 at a parsed object with no quality object at
all. -/
theorem parsed_quality_defaults_witness :
    resultScore (parse_response (.dict ⟨some ("a cat"), none, some []⟩) ("raw") ("m") ("b")) =
      some (0.8 : ℚ) ∧
    resultDetail ("sharpness")
      (parse_response (.dict ⟨some ("a cat"), none, some []⟩) ("raw") ("m") ("b")) =
      some (0.8 : ℚ) :=
  ⟨(parsed_quality_defaults ⟨some ("a cat"), none, some []⟩ ("raw") ("m") ("b") rfl).1,
   (parsed_quality_defaults ⟨some ("a cat"), none, some []⟩ ("raw") ("m") ("b") rfl).2.2.1 rfl⟩

/-- Claim C10, counterexample: an ok 200 response whose body is the
JSON value `null` makes the request return `null` although the status
is not 204 (the caller cannot tell this apart from a 204), and an ok
200 response whose body fails to parse throws instead of returning a
parsed body. -/
theorem request_null_not_only_204 :
    apiRequest (.response 200 ("OK") (some .null)) = .ok .null ∧
    (200 : Nat) ≠ 204 ∧
    apiRequest (.response 200 ("OK") none) =
      .error ("SyntaxError: response body is not valid JSON") :=
  ⟨rfl, by decide, rfl⟩

/-- Claim C10, amended: the request operation throws an Error for every
non-ok response and for every network failure — no failed request ever
yields a value — and returns `null` for a 204 without reading the body;
for every other ok response it returns the parsed JSON body when the
body parses (which is `null` exactly when the body is JSON `null`) and
throws when the body does not parse as JSON. -/
theorem request_outcome_behavior (status : Nat) (statusText : String) (body : Option JsonVal) :
    (¬ (200 ≤ status ∧ status ≤ 299) →
      apiRequest (.response status statusText body) =
        .error (requestErrorMessage body statusText status)) ∧
    ((200 ≤ status ∧ status ≤ 299) → status = 204 →
      apiRequest (.response status statusText body) = .ok .null) ∧
    ((200 ≤ status ∧ status ≤ 299) → status ≠ 204 →
      ∀ v, body = some v → apiRequest (.response status statusText body) = .ok v) ∧
    ((200 ≤ status ∧ status ≤ 299) → status ≠ 204 → body = none →
      apiRequest (.response status statusText body) =
        .error ("SyntaxError: response body is not valid JSON")) ∧
    (∀ msg : String, apiRequest (.networkError msg) = .error msg) := by
  refine ⟨?_, ?_, ?_, ?_, fun msg => rfl⟩
  · intro h
    simp [apiRequest, h]
  · intro hok h204
    subst h204
    simp [apiRequest]
  · intro hok hne v hv
    subst hv
    simp [apiRequest, hok, hne]
  · intro hok hne hv
    subst hv
    simp [apiRequest, hok, hne]

/-- Witness for the amended claim C10 at a 500, a 204 and a 200. -/
theorem request_outcome_behavior_witness :
    apiRequest (.response 500 ("Internal Server Error") none) =
      .error (requestErrorMessage none ("Internal Server Error") 500) ∧
    apiRequest (.response 204 ("No Content") none) = .ok .null ∧
    apiRequest (.response 200 ("OK") (some (.str ("fine")))) = .ok (.str ("fine")) :=
  ⟨(request_outcome_behavior 500 ("Internal Server Error") none).1 (by decide),
   (request_outcome_behavior 204 ("No Content") none).2.1 (by decide) rfl,
   (request_outcome_behavior 200 ("OK") (some (.str ("fine")))).2.2.1 (by decide) (by decide)
     (.str ("fine")) rfl⟩

lemma bumpCounter_status (s : JobState) (item : Nat) (k : OutcomeKind) :
    (bumpCounter s item k).status = s.status := by
  cases k <;> rfl

lemma bumpCounter_total (s : JobState) (item : Nat) (k : OutcomeKind) :
    (bumpCounter s item k).total = s.total := by
  cases k <;> rfl

lemma bumpCounter_done (s : JobState) (item : Nat) (k : OutcomeKind) :
    doneCount (bumpCounter s item k) = doneCount s + 1 := by
  cases k <;> simp [bumpCounter, doneCount] <;> omega

lemma doneCount_setStatus (x : JobState) (v : JobStatus) :
    doneCount { x with status := v } = doneCount x := rfl

lemma total_setStatus (x : JobState) (v : JobStatus) :
    ({ x with status := v } : JobState).total = x.total := rfl

/-- Claim C5, amended: in every reachable state of a job record,
`completed + failed + skipped ≤ total`, and whenever the status is
`completed` — in particular at the moment it becomes `completed` — the
three counters sum to exactly `total`.  (Terminal status does not imply
equality: `cancelled` and `failed` are terminal and reachable with the
sum strictly below the total.) -/
theorem job_counter_invariant (s : JobState) (hr : JobReachable s) :
    doneCount s ≤ s.total ∧
    (s.status = JobStatus.completed → doneCount s = s.total) := by
  induction hr with
  | init total =>
    refine ⟨Nat.zero_le _, fun h => ?_⟩
    simp [initialJob] at h
  | @step t t' hr hs ih =>
    cases hs with
    | start h =>
      refine ⟨ih.1, fun hc => ?_⟩
      simp at hc
    | progress item k hrun hlt =>
      have hd := bumpCounter_done t item k
      have ht := bumpCounter_total t item k
      have hst := bumpCounter_status t item k
      unfold applyProgress
      by_cases hfin : doneCount (bumpCounter t item k) = (bumpCounter t item k).total
      · rw [if_pos hfin]
        refine ⟨?_, fun _ => ?_⟩
        · rw [doneCount_setStatus, total_setStatus, hfin]
        · rw [doneCount_setStatus, total_setStatus, hfin]
      · rw [if_neg hfin]
        refine ⟨by omega, fun hc => ?_⟩
        rw [hst, hrun] at hc
        simp at hc
    | pause h =>
      refine ⟨ih.1, fun hc => ?_⟩
      simp at hc
    | resume h =>
      refine ⟨ih.1, fun hc => ?_⟩
      simp at hc
    | cancel h =>
      refine ⟨ih.1, fun hc => ?_⟩
      simp at hc
    | fatal h =>
      refine ⟨ih.1, fun hc => ?_⟩
      simp at hc

/-- Witness for the amended claim C5 at a freshly created job. -/
theorem job_counter_invariant_witness :
    doneCount (initialJob 3) ≤ (initialJob 3).total ∧
    ((initialJob 3).status = JobStatus.completed → doneCount (initialJob 3) = (initialJob 3).total) :=
  job_counter_invariant (initialJob 3) (JobReachable.init 3)

/-- Claim C5, counterexample: a job with one work item cancelled right
after creation reaches a terminal status (`cancelled` is terminal)
while `completed + failed + skipped = 0 ≠ 1 = total`, so counter
equality does not hold exactly at the terminal states. -/
theorem cancelled_terminal_without_equality :
    JobReachable ⟨JobStatus.cancelled, 1, 0, 0, 0, []⟩ ∧
    JobStatus.isTerminal JobStatus.cancelled = true ∧
    doneCount ⟨JobStatus.cancelled, 1, 0, 0, 0, []⟩ ≠ 1 := by
  refine ⟨?_, rfl, by decide⟩
  exact JobReachable.step (JobReachable.init 1) (JobStep.cancel (initialJob 1) (Or.inl rfl))

/-- Claim C6: the startup recovery step turns every job whose persisted
status is `running` into `paused` — never back into `running` — and
leaves the progress counters, the total and the recovery payload
untouched. -/
theorem startup_recovery_pauses_running (s : JobState) (h : s.status = JobStatus.running) :
    (recoverOnStartup s).status = JobStatus.paused ∧
    (recoverOnStartup s).status ≠ JobStatus.running ∧
    (recoverOnStartup s).completedCount = s.completedCount ∧
    (recoverOnStartup s).failedCount = s.failedCount ∧
    (recoverOnStartup s).skippedCount = s.skippedCount ∧
    (recoverOnStartup s).total = s.total ∧
    (recoverOnStartup s).payload = s.payload := by
  simp [recoverOnStartup, h]

/-- Witness for claim C6 at the scenario of the spec: a running job
with 2 of 5 items done. -/
theorem startup_recovery_pauses_running_witness :
    (recoverOnStartup ⟨JobStatus.running, 5, 2, 0, 0, []⟩).status = JobStatus.paused ∧
    (recoverOnStartup ⟨JobStatus.running, 5, 2, 0, 0, []⟩).status ≠ JobStatus.running ∧
    (recoverOnStartup ⟨JobStatus.running, 5, 2, 0, 0, []⟩).completedCount =
      (⟨JobStatus.running, 5, 2, 0, 0, []⟩ : JobState).completedCount ∧
    (recoverOnStartup ⟨JobStatus.running, 5, 2, 0, 0, []⟩).failedCount =
      (⟨JobStatus.running, 5, 2, 0, 0, []⟩ : JobState).failedCount ∧
    (recoverOnStartup ⟨JobStatus.running, 5, 2, 0, 0, []⟩).skippedCount =
      (⟨JobStatus.running, 5, 2, 0, 0, []⟩ : JobState).skippedCount ∧
    (recoverOnStartup ⟨JobStatus.running, 5, 2, 0, 0, []⟩).total =
      (⟨JobStatus.running, 5, 2, 0, 0, []⟩ : JobState).total ∧
    (recoverOnStartup ⟨JobStatus.running, 5, 2, 0, 0, []⟩).payload =
      (⟨JobStatus.running, 5, 2, 0, 0, []⟩ : JobState).payload :=
  startup_recovery_pauses_running ⟨JobStatus.running, 5, 2, 0, 0, []⟩ rfl

/-- Claim C7: resume on a job that is not `paused`, and pause on a job
that is not `running`, are no-ops: the returned state is the input
state unchanged (status, counters and recovery payload included) and
the command reports the non-fatal `InvalidTransition` value to the
caller instead of raising. -/
theorem control_command_noop_on_invalid (s : JobState) :
    (s.status ≠ JobStatus.paused → resumeCommand s = (s, ControlResult.invalidTransition)) ∧
    (s.status ≠ JobStatus.running → pauseCommand s = (s, ControlResult.invalidTransition)) := by
  constructor
  · intro h
    simp [resumeCommand, h]
  · intro h
    simp [pauseCommand, h]

/-- Witness for claim C7 at a completed job, where both commands are
invalid. -/
theorem control_command_noop_on_invalid_witness :
    resumeCommand ⟨JobStatus.completed, 3, 3, 0, 0, []⟩ =
      (⟨JobStatus.completed, 3, 3, 0, 0, []⟩, ControlResult.invalidTransition) ∧
    pauseCommand ⟨JobStatus.completed, 3, 3, 0, 0, []⟩ =
      (⟨JobStatus.completed, 3, 3, 0, 0, []⟩, ControlResult.invalidTransition) :=
  ⟨(control_command_noop_on_invalid ⟨JobStatus.completed, 3, 3, 0, 0, []⟩).1 (by decide),
   (control_command_noop_on_invalid ⟨JobStatus.completed, 3, 3, 0, 0, []⟩).2 (by decide)⟩

end CaptionFoundry
